import Mathlib

/-!
Shallow embedding of `analyze_diag.py` (es-auto-diag): the rule engine
(`Analyzer.check_*` methods), the hot-thread block extractor, and the
top-level `Analyzer.check` pipeline.

Modelling conventions:
* Python dicts that only feed the checks are projected to the fields the
  checks actually read (e.g. a node-stats entry keeps exactly the eight
  values the rules touch).  Dict iteration order (insertion order) becomes
  list order.
* A `Result` mirrors the source class: `bad = True` is the ATTENTION
  severity of the spec, `bad = False` is OK/informational.
* Python float arithmetic is modelled with `ℚ`; `"%.2f"` formatting is
  `fmt2` (decimal rounding), `"%d"` applied to a float is `qtrunc`
  (truncation toward zero), `"%s"` of an integer is `toString`.
* Fallible code (Python exceptions) is modelled explicitly: a check that
  can raise returns `List Result × Option Err` (the findings appended
  before the exception, and the exception if one was raised).  Divisions
  by a possibly-zero denominator raise `Err.zeroDivision` exactly where
  the source divides; the unbound-name crash on line 307 of the source is
  `Err.nameError`; a failed write of hot_threads.txt is `Err.sinkWrite`,
  modelled by a `sink_ok` flag in the bundle.
* Chart construction (`plotille` histograms, `rich` tables) is an external
  collaborator excluded by the spec; charts carry no findings and are
  dropped, except where evaluating a chart expression can raise inside the
  source (`check_fielddata`), which is kept as an error outcome.
-/

attribute [local semireducible] Rat.mul Rat.inv Rat.add Rat.sub

/-- JSON scalar values as the checks compare them (string / bool / int / null). -/
inductive JsonVal where
  | str (s : String)
  | bool (b : Bool)
  | int (n : ℤ)
  | null
deriving DecidableEq, Repr

/-- Python truthiness of a JSON scalar, as used by `if v:` and `.get(...)` guards. -/
def JsonVal.truthy : JsonVal → Bool
  | .str s => s ≠ ""
  | .bool b => b
  | .int n => n ≠ 0
  | .null => false

/-- Payloads stored in `Result.value` across the source (ints, floats, strings,
string lists, (index, field) pairs, hot-thread blocks, the docs-count triple). -/
inductive RVal where
  | none
  | int (n : ℤ)
  | rat (q : ℚ)
  | str (s : String)
  | strList (l : List String)
  | strPair (a b : String)
  | blocks (b : List (List String))
  | triple (a b : ℤ) (q : ℚ)
deriving DecidableEq, Repr

/-- The `Result` class of the source: message, code, severity flag, value.
`bad = true` is the spec's ATTENTION severity. -/
structure Result where
  message : String
  code : String
  bad : Bool
  value : RVal
deriving DecidableEq, Repr

/-- Exceptions the source can raise while checking. -/
inductive Err where
  | zeroDivision
  | nameError
  | sinkWrite
deriving DecidableEq, Repr

/-- Outcome of one check: the findings it appended (in order) and the
exception it raised, if any (findings appended before the raise are kept,
matching the in-place mutation of `self.results`). -/
abbrev Step : Type := List Result × Option Err

/-- Python whitespace for `str.strip` and the regex class. -/
def pyIsSpace (c : Char) : Bool :=
  c = ' ' ∨ c = '\t' ∨ c = '\n' ∨ c = '\r' ∨ c = '\x0b' ∨ c = '\x0c'

/-- Python `str.strip()`: drop leading and trailing whitespace. -/
def pstrip (s : String) : String :=
  ⟨(s.toList.dropWhile pyIsSpace).reverse.dropWhile pyIsSpace |>.reverse⟩

/-- Truncation toward zero of a rational, as Python `"%d" % f` applies to a float. -/
def qtrunc (q : ℚ) : ℤ := q.num.tdiv (q.den : ℤ)

/-- Decimal two-digit formatting of a rational, modelling Python `"%.2f"`. -/
def fmt2 (q : ℚ) : String :=
  let m : ℕ := (⌊|q| * 100 + 1/2⌋).toNat
  let ip := m / 100
  let fp := m % 100
  let fs := if fp < 10 then "0" ++ toString fp else toString fp
  (if q < 0 then "-" else "") ++ toString ip ++ "." ++ fs

/-- The `Analyzer.GB` constant of the source. -/
def GB : ℤ := 1024 * 1024 * 1024

/-- One node-stats entry (`nodes_stats.json → nodes → <id>`), projected to
the fields the rules read. -/
structure NodeStats where
  name : String
  jvm_mem_heap_used_percent : ℚ
  os_cpu_percent : ℚ
  os_mem_used_percent : ℚ
  fs_available_in_bytes : ℤ
  fs_free_in_bytes : ℤ
  fs_total_in_bytes : ℤ
  fs_io_operations : ℤ
deriving DecidableEq, Repr

/-- The `_all.primaries` slice of `indices_stats.json` that `check_indices` reads. -/
structure IndicesStats where
  docs_count : ℤ
  docs_deleted : ℤ
  refresh_millis : ℤ
  flush_millis : ℤ
  indexing_millis : ℤ
  search_millis : ℤ
deriving DecidableEq, Repr

/-- One entry of `shards.json`.  `docs` and `store` keep the source's
`s.get(...)` optionality (already converted by `int(...)`); `docs` only
feeds a dropped histogram. -/
structure ShardRec where
  node : String
  docs : Option ℤ
  store : Option ℤ
deriving DecidableEq, Repr

/-- The `settings.index` object of one index in `settings.json`, projected to
the two keys read (`refresh_interval` as the raw JSON scalar,
`number_of_replicas` after the source's `int(...)`). -/
structure IndexSettings where
  refresh_interval : Option JsonVal
  number_of_replicas : Option ℤ
deriving DecidableEq, Repr

/-- One field definition inside a mapping (`type` and `fielddata` keys as read). -/
structure FieldDef where
  type : Option String
  fielddata : Option JsonVal
deriving DecidableEq, Repr

/-- The `mappings` object of one index in `mapping.json`.  When the
`properties` key is present its entries are the fields; otherwise the
object is flat: its keys are the `flat` field entries plus the optional
`dynamic` key (this assumption is used by `len(mapping["mappings"])`). -/
structure MappingsObj where
  properties : Option (List (String × FieldDef))
  flat : List (String × FieldDef)
  dynamic : Option JsonVal
deriving DecidableEq, Repr

/-- The fields object a mapping check iterates: `properties` if present, else the flat object. -/
def fieldsData (m : MappingsObj) : List (String × FieldDef) :=
  m.properties.getD m.flat

/-- The whole diagnostic bundle, one field per artifact slice the checks read.
`cluster_state_size` is the byte size `os.path.getsize` returns;
`sink_ok` models whether the best-effort `hot_threads.txt` write succeeds. -/
structure Bundle where
  cluster_health_status : String
  cluster_health_unassigned_shards : ℤ
  nodes_compressed_oops : List JsonVal
  nodes_stats : List NodeStats
  indices_stats : IndicesStats
  shards : List ShardRec
  cluster_state_size : ℤ
  settings : List (String × IndexSettings)
  fielddata_nodes : List (List (String × ℤ))
  mapping : List (String × MappingsObj)
  hot_threads_lines : List String
  pending_tasks : Option ℕ
  sink_ok : Bool

/-- Embeds `Analyzer.check_cluster_health` (source lines 83-99). -/
def check_cluster_health (status : String) : List Result :=
  if status ≠ "green" then
    [⟨"Cluster is: " ++ status.toUpper, "CLUSTER_HEALTH", true, .str status⟩]
  else
    [⟨"Cluster is: GREEN", "CLUSTER_HEALTH", false, .str status⟩]

/-- Embeds `Analyzer.check_nodes` (source lines 101-118); the input is the
`using_compressed_ordinary_object_pointers` value of each node. -/
def check_nodes (oops : List JsonVal) : List Result :=
  let node_count := oops.length
  let compressed_oops_count := (oops.filter (fun v => v == JsonVal.str "true")).length
  if compressed_oops_count < node_count then
    [⟨"Compressed OOPs off for " ++ toString (node_count - compressed_oops_count)
        ++ " nodes out of " ++ toString node_count,
      "COMPRESSED_OOPS", true, .int (node_count - compressed_oops_count)⟩]
  else
    [⟨"Compressed OOPs on for all nodes", "COMPRESSED_OOPS", false, .none⟩]

/-- Embeds `Analyzer.check_indices` (source lines 120-172).  The source
divides `deleted_docs / total_docs` before appending anything, so a zero
total-doc count raises with no findings appended. -/
def check_indices (ist : IndicesStats) : Step :=
  if ist.docs_count = 0 then ([], some .zeroDivision)
  else
    let pct : ℚ := (ist.docs_deleted : ℚ) / (ist.docs_count : ℚ) * 100
    let refresh_h : ℚ := (ist.refresh_millis : ℚ) / 1000 / 3600
    let flush_h : ℚ := (ist.flush_millis : ℚ) / 1000 / 3600
    let index_h : ℚ := (ist.indexing_millis : ℚ) / 1000 / 3600
    let search_h : ℚ := (ist.search_millis : ℚ) / 1000 / 3600
    ([⟨"Total docs: " ++ toString ist.docs_count ++ "; deleted docs: "
          ++ toString ist.docs_deleted ++ " (" ++ fmt2 pct ++ "%)",
       "DOCS_COUNT", false, .triple ist.docs_count ist.docs_deleted pct⟩,
      ⟨"Refresh duration: total " ++ fmt2 refresh_h ++ " hours", "DURATION", false, .rat refresh_h⟩,
      ⟨"Flush duration: total " ++ fmt2 flush_h ++ " hours", "DURATION", false, .rat flush_h⟩,
      ⟨"Indexing duration: total " ++ fmt2 index_h ++ " hours", "DURATION", false, .rat index_h⟩,
      ⟨"Search duration: total " ++ fmt2 search_h ++ " hours", "DURATION", false, .rat search_h⟩],
     Option.none)

/-- Python truthiness of `s.get("store")` for a shard record. -/
def storeTruthy (s : ShardRec) : Bool :=
  match s.store with
  | some v => v ≠ 0
  | none => false

/-- Embeds `Analyzer.check_shards` minus its charts (source lines 174-260).
Both oversharding branches set `bad=True` exactly as the source does.  With
an empty inventory the small-shards percentage in the message divides by
zero after the oversharding finding was already appended. -/
def check_shards (shards : List ShardRec) (cluster_state_size : ℤ) : Step :=
  let shards_count := shards.length
  let overshard : Result :=
    if 20000 < shards_count then
      ⟨"Cluster has " ++ toString shards_count ++ " shards, that can cause some instability",
       "OVERSHARDING", true, .int shards_count⟩
    else
      ⟨"Cluster has " ++ toString shards_count ++ " shards, that should not cause any issues",
       "OVERSHARDING", true, .int shards_count⟩
  if shards_count = 0 then ([overshard], some .zeroDivision)
  else
    let shard_sizes_gb : List ℚ :=
      (shards.filter storeTruthy).map (fun s => ((s.store.getD 0 : ℤ) : ℚ) / (GB : ℚ))
    let small_shards_count := (shard_sizes_gb.filter (fun q => q < 1)).length
    let large_shards_count := (shard_sizes_gb.filter (fun q => 50 < q)).length
    let small_pct : ℚ := (small_shards_count : ℚ) / (shards_count : ℚ) * 100
    let large_pct : ℚ := (large_shards_count : ℚ) / (shards_count : ℚ) * 100
    let smallRes : Result :=
      if (1 : ℚ) / 10 * (shards_count : ℚ) < (small_shards_count : ℚ) then
        ⟨"Cluster has " ++ toString small_shards_count ++ " (" ++ fmt2 small_pct
            ++ "%) small (less than 1 GB) shards, shrinking or merging recommended",
         "MANY_SMALL_SHARDS", true, .int small_shards_count⟩
      else
        ⟨"Cluster has " ++ toString small_shards_count ++ " (" ++ fmt2 small_pct
            ++ "%) small (less than 1 GB) shards",
         "MANY_SMALL_SHARDS", false, .int small_shards_count⟩
    let largeRes : Result :=
      if 0 < large_shards_count then
        ⟨"Cluster has " ++ toString large_shards_count ++ " (" ++ fmt2 large_pct
            ++ "%) large (more than 50 GB) shards",
         "MANY_LARGE_SHARDS", true, .int large_shards_count⟩
      else
        ⟨"Cluster has " ++ toString large_shards_count ++ " (" ++ fmt2 large_pct
            ++ "%) large (more than 50 GB) shards",
         "MANY_LARGE_SHARDS", false, .int large_shards_count⟩
    let cs_mb : ℚ := (cluster_state_size : ℚ) / 1024 / 1024
    let stateRes : Result :=
      if 50 < cs_mb then
        ⟨"Cluster state size is " ++ fmt2 cs_mb
            ++ " MB; this might cause various issues across the cluster",
         "CLUSTER_STATE_SIZE", true, .rat cs_mb⟩
      else
        ⟨"Cluster state size is " ++ fmt2 cs_mb ++ " MB", "CLUSTER_STATE_SIZE", false, .rat cs_mb⟩
    ([overshard, smallRes, largeRes, stateRes], Option.none)

/-- Embeds `Analyzer.check_settings` (source lines 262-280).  The count
keeps the source's truthiness test on `get("refresh_interval", "1s")` (any
absent or truthy value counts); an empty settings document makes the
percentage divide by zero before any finding is appended. -/
def check_settings (settings : List (String × IndexSettings)) : Step :=
  let vals := settings.map Prod.snd
  let indices_count := vals.length
  let refresh_1s_indices_count :=
    (vals.filter (fun i => (i.refresh_interval.getD (JsonVal.str "1s")).truthy)).length
  if indices_count = 0 then ([], some .zeroDivision)
  else
    let pct : ℚ := (refresh_1s_indices_count : ℚ) / (indices_count : ℚ) * 100
    if (1 : ℚ) / 10 < (refresh_1s_indices_count : ℚ) / (indices_count : ℚ) then
      ([⟨"refresh_interval is default 1s for " ++ toString refresh_1s_indices_count
            ++ " indices (" ++ fmt2 pct
            ++ "%), consider raising to 30s or 60s to speed up ingestion",
         "REFRESH_INTERVAL", false, .int refresh_1s_indices_count⟩], Option.none)
    else
      ([⟨"refresh_interval is default 1s for " ++ toString refresh_1s_indices_count
            ++ " indices (" ++ fmt2 pct ++ "%), that\x27s ok",
         "REFRESH_INTERVAL", false, .int refresh_1s_indices_count⟩], Option.none)

/-- Embeds `Analyzer.check_fielddata` (source lines 282-307).  It appends no
findings, only charts; but the chart line `" * " + f` on source line 307
reads the leaked loop variable `f`, which is unbound - a NameError - exactly
when no node contributed any fielddata field. -/
def check_fielddata (fielddata_nodes : List (List (String × ℤ))) : Step :=
  if fielddata_nodes.all (fun nodeFields => nodeFields.isEmpty) then ([], some .nameError)
  else ([], Option.none)

/-- The dynamic-mapping accumulation loop of `Analyzer.check_id_field_type`
(source lines 337-340): an index counts as dynamic-enabled when
`get("dynamic", "true") == "true"`. -/
def dynamic_mapping_enabled : List (String × MappingsObj) → List String
  | [] => []
  | (index, m) :: rest =>
    if (m.dynamic.getD (JsonVal.str "true")) == JsonVal.str "true" then
      index :: dynamic_mapping_enabled rest
    else
      dynamic_mapping_enabled rest

/-- The problematic-index accumulation loop of `Analyzer.check_id_field_type`
(source lines 313-320): one entry per `_id` field whose type is not `keyword`. -/
def nonKeywordIdIndices : List (String × MappingsObj) → List String
  | [] => []
  | (index, m) :: rest =>
    ((fieldsData m).filter
        (fun fd => fd.1 == "_id" && !(fd.2.type == some "keyword"))).map (fun _ => index)
      ++ nonKeywordIdIndices rest

/-- Embeds `Analyzer.check_id_field_type` (source lines 309-362): the
non-keyword `_id` findings followed by the dynamic-mapping findings. -/
def check_id_field_type (mapping : List (String × MappingsObj)) : List Result :=
  let problematic_indices := nonKeywordIdIndices mapping
  let part1 :=
    if problematic_indices.isEmpty then
      [⟨"All _id fields are of type keyword", "NON_KEYWORD_ID_FIELD", false, .none⟩]
    else
      problematic_indices.map (fun index =>
        ⟨"Field _id in index " ++ index ++ " is not of type keyword",
         "NON_KEYWORD_ID_FIELD", true, .str index⟩)
  let dyn := dynamic_mapping_enabled mapping
  let part2 :=
    if dyn.isEmpty then
      [⟨"Dynamic mapping is disabled for all indices", "DYNAMIC_MAPPING_ENABLED", false, .none⟩]
    else if dyn.length < 10 then
      [⟨"Dynamic mapping is enabled for indices: " ++ String.intercalate ", " dyn,
        "DYNAMIC_MAPPING_ENABLED", true, .strList dyn⟩]
    else
      [⟨"Dynamic mapping is enabled for " ++ toString dyn.length ++ " indices",
        "DYNAMIC_MAPPING_ENABLED", true, .strList dyn⟩]
  part1 ++ part2

/-- The per-index field scan of `Analyzer.check_custom_fields` (source lines
374-380): stops at the first `custom_`-prefixed field (the `break`),
collecting text fields with truthy `fielddata` seen before it. -/
def scanCustomFields : List (String × FieldDef) → Bool × List String
  | [] => (false, [])
  | (field, fd) :: rest =>
    if field.startsWith "custom_" then (true, [])
    else if fd.type == some "text" && (fd.fielddata.getD (JsonVal.bool false)).truthy then
      let r := scanCustomFields rest
      (r.1, field :: r.2)
    else
      scanCustomFields rest

/-- Embeds `Analyzer.check_custom_fields` (source lines 364-410). -/
def check_custom_fields (mapping : List (String × MappingsObj)) : List Result :=
  let scans := mapping.map (fun p => (p.1, scanCustomFields (fieldsData p.2)))
  let custom_fields_indices := (scans.filter (fun p => p.2.1)).map Prod.fst
  let problematic_fields :=
    scans.foldr (fun p acc => (p.2.2.map (fun field => (p.1, field))) ++ acc) []
  let part1 :=
    if custom_fields_indices.isEmpty then
      [⟨"No custom fields found in any index", "CUSTOM_FIELDS", false, .none⟩]
    else
      custom_fields_indices.map (fun index =>
        ⟨"Custom fields found in index " ++ index, "CUSTOM_FIELDS", false, .str index⟩)
  let part2 :=
    if problematic_fields.isEmpty then
      [⟨"No problematic field data types found", "PROBLEMATIC_FIELD_DATA_TYPE", false, .none⟩]
    else
      problematic_fields.map (fun p =>
        ⟨"Field " ++ p.2 ++ " in index " ++ p.1
            ++ " has fielddata enabled, which can cause performance issues",
         "PROBLEMATIC_FIELD_DATA_TYPE", true, .strPair p.1 p.2⟩)
  part1 ++ part2

/-- The key count `len(mapping["mappings"])` / `len(...["properties"])` read by
`Analyzer.check_field_count` (source lines 416-420). -/
def mappingsLen (m : MappingsObj) : ℕ :=
  match m.properties with
  | some fields => fields.length
  | none => m.flat.length + (if m.dynamic.isSome then 1 else 0)

/-- Embeds `Analyzer.check_field_count` (source lines 412-437). -/
def check_field_count (mapping : List (String × MappingsObj)) : List Result :=
  let high := mapping.filterMap (fun p =>
    if 200 < mappingsLen p.2 then some (p.1, mappingsLen p.2) else none)
  if high.isEmpty then
    [⟨"Field count is within acceptable limits for all indices", "HIGH_FIELD_COUNT", false, .none⟩]
  else
    high.map (fun p =>
      ⟨"High field count in index " ++ p.1 ++ ": " ++ toString p.2 ++ " fields",
       "HIGH_FIELD_COUNT", true, .int p.2⟩)

/-- Embeds `Analyzer.check_nested_fields` (source lines 439-466). -/
def check_nested_fields (mapping : List (String × MappingsObj)) : List Result :=
  let high := mapping.filterMap (fun p =>
    let c := ((fieldsData p.2).filter (fun fd => fd.2.type == some "nested")).length
    if 5 < c then some (p.1, c) else none)
  if high.isEmpty then
    [⟨"Nested field count is within acceptable limits for all indices",
      "HIGH_NESTED_FIELD_COUNT", false, .none⟩]
  else
    high.map (fun p =>
      ⟨"High nested field count in index " ++ p.1 ++ ": " ++ toString p.2 ++ " nested fields",
       "HIGH_NESTED_FIELD_COUNT", true, .int p.2⟩)

/-- Matching of the source's `re.compile(r"^\s*9\d.\d\%")` against the start of
a line: optional whitespace, `9`, a digit, any character but a newline, a
digit, `%`. -/
def hotRe (l : String) : Bool :=
  match l.toList.dropWhile pyIsSpace with
  | '9' :: d1 :: c :: d2 :: '%' :: _ => d1.isDigit && c ≠ '\n' && d2.isDigit
  | _ => false

/-- One iteration of the hot-thread loop of `Analyzer.check_hot_threads`
(source lines 476-488) over state (emitted blocks, current buffer, in-block
flag).  Mirrors the source exactly: a blank line emits the buffer truncated
to 10 lines but clears neither the buffer nor the flag. -/
def hotStep (st : List (List String) × List String × Bool) (l : String) :
    List (List String) × List String × Bool :=
  let (hot_threads, bad_lines, bad_block) := st
  if pstrip l = "" && bad_lines.any (fun s => s ≠ "") then
    (hot_threads ++ [bad_lines.take 10], bad_lines, bad_block)
  else if hotRe l then
    (hot_threads, [pstrip l], true)
  else if bad_block then
    (hot_threads, bad_lines ++ [pstrip l], bad_block)
  else
    st

/-- The hot-thread blocks `Analyzer.check_hot_threads` extracts from the raw
dump lines (modelled without their trailing newlines, which every use strips). -/
def hotBlocks (lines : List String) : List (List String) :=
  (lines.foldl hotStep ([], [], false)).1

/-- Text the source writes to `hot_threads.txt` (source lines 491-494):
each block newline-joined, blocks separated by a blank line. -/
def hotSinkContent (blocks : List (List String)) : String :=
  blocks.foldl (fun acc t => acc ++ String.intercalate "\n" t ++ "\n\n") ""

/-- Embeds `Analyzer.check_hot_threads` (source lines 468-507).  When more
than 5 blocks were extracted the source writes `hot_threads.txt` with no
exception handler, so a failing write (`sink_ok = false`) raises before the
finding is appended; on success the written text is returned alongside. -/
def check_hot_threads (lines : List String) (sink_ok : Bool) : Step × Option String :=
  let hot_threads := hotBlocks lines
  if 5 < hot_threads.length then
    if sink_ok then
      (([⟨toString hot_threads.length
            ++ " hot threads detected; details written to hot_threads.txt",
          "HOT_THREADS", true, .blocks hot_threads⟩], Option.none),
       some (hotSinkContent hot_threads))
    else
      (([], some .sinkWrite), Option.none)
  else
    (([⟨toString hot_threads.length ++ " hot threads detected",
        "HOT_THREADS", false, .blocks hot_threads⟩], Option.none),
     Option.none)

/-- Embeds `Analyzer.check_jvm_heap_usage` (source lines 509-531). -/
def check_jvm_heap_usage (ns : List NodeStats) : List Result :=
  let high := ns.filter (fun n => (75 : ℚ) < n.jvm_mem_heap_used_percent)
  if high.isEmpty then
    [⟨"JVM heap usage is within acceptable limits on all nodes",
      "HIGH_JVM_HEAP_USAGE", false, .none⟩]
  else
    high.map (fun n =>
      ⟨"High JVM heap usage on node " ++ n.name ++ ": "
          ++ toString (qtrunc n.jvm_mem_heap_used_percent) ++ "%",
       "HIGH_JVM_HEAP_USAGE", true, .rat n.jvm_mem_heap_used_percent⟩)

/-- Embeds `Analyzer.check_pending_tasks` (source lines 533-552); the input
is the length of the optional document's `tasks` array, `none` when the file
is absent (the check then returns without appending). -/
def check_pending_tasks (pending : Option ℕ) : List Result :=
  match pending with
  | none => []
  | some pending_task_count =>
    if 0 < pending_task_count then
      [⟨"There are " ++ toString pending_task_count ++ " pending tasks in the cluster",
        "PENDING_TASKS", true, .int pending_task_count⟩]
    else
      [⟨"There are no pending tasks in the cluster", "PENDING_TASKS", false, .none⟩]

/-- An attention CPU finding for one node, as built both by
`Analyzer.check_cpu_usage` (source lines 563-570) and by the duplicated block
inside `Analyzer.check_disk_watermark` (source lines 697-704). -/
def mkCpuBad (n : NodeStats) : Result :=
  ⟨"High CPU usage on node " ++ n.name ++ ": " ++ toString (qtrunc n.os_cpu_percent) ++ "%",
   "HIGH_CPU_USAGE", true, .rat n.os_cpu_percent⟩

/-- Embeds `Analyzer.check_cpu_usage` (source lines 554-576). -/
def check_cpu_usage (ns : List NodeStats) : List Result :=
  let high := ns.filter (fun n => (80 : ℚ) < n.os_cpu_percent)
  if high.isEmpty then
    [⟨"CPU usage is within acceptable limits on all nodes", "HIGH_CPU_USAGE", false, .none⟩]
  else
    high.map mkCpuBad

/-- Embeds `Analyzer.check_disk_usage` (source lines 578-600). -/
def check_disk_usage (ns : List NodeStats) : List Result :=
  let low := ns.filter (fun n => (n.fs_available_in_bytes : ℚ) / (GB : ℚ) < 10)
  if low.isEmpty then
    [⟨"Disk space is within acceptable limits on all nodes", "LOW_DISK_SPACE", false, .none⟩]
  else
    low.map (fun n =>
      ⟨"Low disk space on node " ++ n.name ++ ": "
          ++ fmt2 ((n.fs_available_in_bytes : ℚ) / (GB : ℚ)) ++ " GB free",
       "LOW_DISK_SPACE", true, .rat ((n.fs_available_in_bytes : ℚ) / (GB : ℚ))⟩)

/-- Embeds `Analyzer.check_memory_usage` (source lines 602-646): the OS
memory section followed by the disk I/O section. -/
def check_memory_usage (ns : List NodeStats) : List Result :=
  let highMem := ns.filter (fun n => (80 : ℚ) < n.os_mem_used_percent)
  let memPart :=
    if highMem.isEmpty then
      [⟨"Memory usage is within acceptable limits on all nodes",
        "HIGH_MEMORY_USAGE", false, .none⟩]
    else
      highMem.map (fun n =>
        ⟨"High memory usage on node " ++ n.name ++ ": "
            ++ toString (qtrunc n.os_mem_used_percent) ++ "%",
         "HIGH_MEMORY_USAGE", true, .rat n.os_mem_used_percent⟩)
  let highIo := ns.filter (fun n => 1000000 < n.fs_io_operations)
  let ioPart :=
    if highIo.isEmpty then
      [⟨"Disk I/O is within acceptable limits on all nodes", "HIGH_DISK_IO", false, .none⟩]
    else
      highIo.map (fun n =>
        ⟨"High disk I/O on node " ++ n.name ++ ": "
            ++ toString n.fs_io_operations ++ " operations",
         "HIGH_DISK_IO", true, .int n.fs_io_operations⟩)
  memPart ++ ioPart

/-- Embeds `Analyzer.check_unassigned_shards` (source lines 648-664). -/
def check_unassigned_shards (unassigned_shards : ℤ) : List Result :=
  if 0 < unassigned_shards then
    [⟨"There are " ++ toString unassigned_shards ++ " unassigned shards in the cluster",
      "UNASSIGNED_SHARDS", true, .int unassigned_shards⟩]
  else
    [⟨"There are no unassigned shards in the cluster", "UNASSIGNED_SHARDS", false, .none⟩]

/-- Free-disk percentage `free_in_bytes / total_in_bytes * 100` computed on
source line 671. -/
def diskFreePct (n : NodeStats) : ℚ :=
  (n.fs_free_in_bytes : ℚ) / (n.fs_total_in_bytes : ℚ) * 100

/-- The watermark loop of `Analyzer.check_disk_watermark` (source lines
670-673): collects the nodes below 15% free, raising on the first node whose
total byte count is zero (Python integer division by zero). -/
def watermarkScan : List NodeStats → Except Err (List NodeStats)
  | [] => .ok []
  | n :: rest =>
    if n.fs_total_in_bytes = 0 then .error .zeroDivision
    else
      match watermarkScan rest with
      | .error e => .error e
      | .ok l => .ok (if diskFreePct n < 15 then n :: l else l)

/-- An attention watermark finding for one node (source lines 677-682);
the message renders the free percentage with `%d`. -/
def mkWatermarkBad (n : NodeStats) : Result :=
  ⟨"Disk usage on node " ++ n.name ++ " has exceeded the high watermark: "
      ++ toString (qtrunc (diskFreePct n)) ++ "% free",
   "DISK_WATERMARK_EXCEEDED", true, .rat (diskFreePct n)⟩

/-- Embeds `Analyzer.check_disk_watermark` (source lines 666-710): the
watermark findings followed by a verbatim copy of the CPU-usage check
(source lines 689-710 duplicate lines 555-576). -/
def check_disk_watermark (ns : List NodeStats) : Step :=
  match watermarkScan ns with
  | .error e => ([], some e)
  | .ok high =>
    let wmPart :=
      if high.isEmpty then
        [⟨"Disk usage is within acceptable limits on all nodes",
          "DISK_WATERMARK_EXCEEDED", false, .none⟩]
      else
        high.map mkWatermarkBad
    let highCpu := ns.filter (fun n => (80 : ℚ) < n.os_cpu_percent)
    let cpuPart :=
      if highCpu.isEmpty then
        [⟨"CPU usage is within acceptable limits on all nodes", "HIGH_CPU_USAGE", false, .none⟩]
      else
        highCpu.map mkCpuBad
    (wmPart ++ cpuPart, Option.none)

/-- Embeds `Analyzer.check_index_settings` (source lines 712-726): one
attention finding per index with fewer than one replica, nothing otherwise. -/
def check_index_settings (settings : List (String × IndexSettings)) : List Result :=
  settings.foldr (fun p acc =>
    (if p.2.number_of_replicas.getD 1 < 1 then
      [⟨"Index " ++ p.1 ++ " has less than 1 replica",
        "LOW_NUMBER_OF_REPLICAS", true, .int (p.2.number_of_replicas.getD 1)⟩]
     else []) ++ acc) []

/-- Sequencing of two checks as `Analyzer.check` runs them: the second runs
only if the first did not raise; findings of the part that ran are kept. -/
def andThen (x y : Step) : Step :=
  match x.2 with
  | some e => (x.1, some e)
  | none => (x.1 ++ y.1, y.2)

/-- Wraps a check that cannot raise as a `Step`. -/
def okStep (l : List Result) : Step := (l, Option.none)

/-- Embeds `Analyzer.check` (source lines 728-750): all checks in their fixed
call order, stopping at the first raised exception.  The first component is
the ordered finding sequence one run appends to `Analyzer.results`; the
second is the exception that aborted the run, if any.  Note
`check_cpu_usage` and `check_disk_usage` are invoked twice, and
`check_disk_watermark` additionally contains its own copy of the CPU check. -/
def checkRun (b : Bundle) : Step :=
  andThen (okStep (check_cluster_health b.cluster_health_status
      ++ check_memory_usage b.nodes_stats
      ++ check_unassigned_shards b.cluster_health_unassigned_shards))
    (andThen (check_disk_watermark b.nodes_stats)
      (andThen (okStep (check_jvm_heap_usage b.nodes_stats
          ++ check_pending_tasks b.pending_tasks
          ++ check_cpu_usage b.nodes_stats
          ++ check_disk_usage b.nodes_stats
          ++ check_nodes b.nodes_compressed_oops))
        (andThen (check_settings b.settings)
          (andThen (check_indices b.indices_stats)
            (andThen (check_shards b.shards b.cluster_state_size)
              (andThen (check_fielddata b.fielddata_nodes)
                (andThen (okStep (check_field_count b.mapping
                    ++ check_nested_fields b.mapping))
                  (andThen (check_hot_threads b.hot_threads_lines b.sink_ok).1
                    (okStep (check_id_field_type b.mapping
                        ++ check_custom_fields b.mapping
                        ++ check_index_settings b.settings
                        ++ check_cpu_usage b.nodes_stats
                        ++ check_disk_usage b.nodes_stats))))))))))

/-- The contents of the class-level `Analyzer.results` list after one more
`check()` call, starting from the accumulated contents `s` (the list is a
class attribute, so it is shared across calls and instances and only ever
appended to). -/
def resultsAfterRun (b : Bundle) (s : List Result) : List Result :=
  s ++ (checkRun b).1

/-- An index uses the default 1s refresh interval (the spec's reading of the
refresh-interval rule): the setting is absent or explicitly "1s". -/
def usesDefaultRefresh (i : IndexSettings) : Bool :=
  i.refresh_interval == none || i.refresh_interval == some (JsonVal.str "1s")

/-- Modelled from the spec: `analyze_diag.py` declares `Result.CODE_GC` but
contains no GC rule; per the spec's threshold table and testable properties,
the rule flags ATTENTION when the cumulative old-generation collection time
(`oldGcMillis / 1000 / 3600` hours) is at least 1.0 hour, and always reports
the young-generation time informationally. -/
def check_gc (young_gc_millis old_gc_millis : ℤ) : List Result :=
  let old_hours : ℚ := (old_gc_millis : ℚ) / 1000 / 3600
  let young_hours : ℚ := (young_gc_millis : ℚ) / 1000 / 3600
  (if 1 ≤ old_hours then
    [⟨"Old GC duration: total " ++ fmt2 old_hours ++ " hours", "GC", true, .rat old_hours⟩]
   else
    [⟨"Old GC duration: total " ++ fmt2 old_hours ++ " hours", "GC", false, .rat old_hours⟩])
  ++ [⟨"Young GC duration: total " ++ fmt2 young_hours ++ " hours", "GC", false,
      .rat young_hours⟩]

/-- Dump lines producing six one-line hot-thread blocks. -/
def hotLines6 : List String := (List.replicate 6 ["  95.0% x", ""]).flatten

/-- A small well-formed bundle on which a full `check()` run raises nothing. -/
def exampleBundle : Bundle where
  cluster_health_status := "green"
  cluster_health_unassigned_shards := 0
  nodes_compressed_oops := [.str "true"]
  nodes_stats := [⟨"n1", 50, 10, 50, 20 * GB, 50, 100, 5⟩]
  indices_stats := ⟨100, 10, 3600000, 0, 0, 0⟩
  shards := [⟨"n1", some 10, some (2 * GB)⟩]
  cluster_state_size := 1048576
  settings := [("idx1", ⟨none, some 1⟩)]
  fielddata_nodes := [[("field1", 100)]]
  mapping := [("idx1", ⟨some [("title", ⟨some "keyword", none⟩)], [], none⟩)]
  hot_threads_lines := []
  pending_tasks := some 0
  sink_ok := true

/-- The same bundle with its single node running at 90% CPU. -/
def hotCpuBundle : Bundle :=
  { exampleBundle with nodes_stats := [⟨"n1", 50, 90, 50, 20 * GB, 50, 100, 5⟩] }

/-- The same bundle with six hot-thread blocks and a failing sink write. -/
def sinkFailBundle : Bundle :=
  { exampleBundle with hot_threads_lines := hotLines6, sink_ok := false }

/-- The same bundle with an empty shard inventory. -/
def emptyShardsBundle : Bundle :=
  { exampleBundle with shards := [] }

/-- Decides whether a finding is an attention CPU-usage finding. -/
def isCpuBad (r : Result) : Bool := r.code == "HIGH_CPU_USAGE" && r.bad

lemma andThen_snd_none {x y : Step} : (andThen x y).2 = none ↔ x.2 = none ∧ y.2 = none := by
  cases h : x.2 <;> simp [andThen, h]

lemma andThen_fst_of_none {x y : Step} (h : x.2 = none) : (andThen x y).1 = x.1 ++ y.1 := by
  simp [andThen, h]

lemma le_length_andThen (x y : Step) : x.1.length ≤ (andThen x y).1.length := by
  cases h : x.2 <;> simp [andThen, h]

lemma check_cluster_health_length (s : String) : (check_cluster_health s).length = 1 := by
  unfold check_cluster_health
  split <;> rfl

lemma checkRun_fst_ne_nil (b : Bundle) : (checkRun b).1 ≠ [] := by
  have h2 : 1 ≤ (checkRun b).1.length := by
    unfold checkRun
    refine le_trans ?_ (le_length_andThen _ _)
    simp [okStep, check_cluster_health_length]
  intro hnil
  rw [hnil] at h2
  simp at h2

/-- Claim C1: the oversharding rule of `check_shards` marks its finding
ATTENTION (`bad = true`) on both branches - the first finding of every
`check_shards` outcome has code OVERSHARDING and `bad = true` regardless of
the shard count, so a count of at most 20000 is still flagged, contradicting
the claimed non-ATTENTION result. -/
theorem C1_oversharding_always_attention :
    ∀ (shards : List ShardRec) (cluster_state_size : ℤ),
      ((check_shards shards cluster_state_size).1.head?).map Result.bad = some true ∧
      ((check_shards shards cluster_state_size).1.head?).map Result.code = some "OVERSHARDING" := by
  intro shards cs
  by_cases h0 : shards.length = 0 <;> by_cases h1 : 20000 < shards.length <;>
    simp [check_shards, h0, h1]

/-- Claim C2: on the spec's six-line dump the extractor emits two blocks,
not one - the blank line emits the buffer but clears neither it nor the
in-block flag, so the non-hot `10.0% bar` block is appended onto the stale
buffer and emitted again at the next blank line. -/
theorem C2_hot_thread_blocks_two :
    hotBlocks ["  95.0% foo", "  line2", "", "  10.0% bar", "  line3", ""] =
      [["95.0% foo", "line2"], ["95.0% foo", "line2", "10.0% bar", "line3"]] := by
  decide

/-- Claim C3 (amended): every `check()` run appends the same
bundle-determined finding sequence regardless of the accumulated state
(per-run emission is deterministic), but `Analyzer.results` is a shared
class-level list, so after a second run it holds the first run's sequence
concatenated with itself and is never byte-identical to the state after one
run. -/
theorem C3_run_determinism_and_accumulation :
    ∀ (b : Bundle) (s : List Result),
      resultsAfterRun b s = s ++ resultsAfterRun b [] ∧
      resultsAfterRun b (resultsAfterRun b []) ≠ resultsAfterRun b [] := by
  intro b s
  constructor
  · simp [resultsAfterRun]
  · intro h
    simp only [resultsAfterRun, List.nil_append] at h
    have hlen := congrArg List.length h
    simp only [List.length_append] at hlen
    have hz : (checkRun b).1.length = 0 := by omega
    exact checkRun_fst_ne_nil b (List.length_eq_zero.mp hz)

/-- Claim C3 (counterexample): on a concrete bundle the full run raises
nothing, yet the `Analyzer.results` contents after the second `check()` call
differ from the contents after the first - findings accumulate across runs. -/
theorem C3_second_run_accumulates :
    (checkRun exampleBundle).2 = none ∧
      resultsAfterRun exampleBundle (resultsAfterRun exampleBundle []) ≠
        resultsAfterRun exampleBundle [] := by
  constructor
  · decide
  · decide

/-- Claim C4 (spec-modelled GC rule): at `oldGcMillis = 3600000` (exactly
1.0 hour) the rule emits exactly one ATTENTION finding, with code GC; at
`oldGcMillis = 3599999` it emits no ATTENTION finding; and for every input
the young-generation time is reported by a non-ATTENTION finding. -/
theorem C4_gc_boundary :
    ∀ young_gc_millis : ℤ,
      (((check_gc young_gc_millis 3600000).filter (fun r => r.bad)).map Result.code = ["GC"]) ∧
      ((check_gc young_gc_millis 3599999).filter (fun r => r.bad) = []) ∧
      (∀ old_gc_millis : ℤ, ∃ r ∈ check_gc young_gc_millis old_gc_millis,
          r.bad = false ∧ r.value = .rat ((young_gc_millis : ℚ) / 1000 / 3600)) := by
  intro young
  refine ⟨?_, ?_, ?_⟩
  · have h : (1 : ℚ) ≤ 3600000 / 1000 / 3600 := by norm_num
    simp [check_gc, h]
  · have h : ¬ (1 : ℚ) ≤ 3599999 / 1000 / 3600 := by norm_num
    simp [check_gc, h]
  · intro old
    refine ⟨_, List.mem_append_right _ (List.mem_singleton_self _), rfl, rfl⟩

/-- Claim C6: evaluating `check_settings` at a single index whose
refresh_interval is explicitly "30s" shows the truthiness bug: the index is
counted (value 1, reported as 100% on the default), the "consider raising"
branch fires, severity stays non-ATTENTION - while the number of indices
actually using the default 1s interval is 0. -/
theorem C6_refresh_interval_eval :
    check_settings [("idx1", ⟨some (JsonVal.str "30s"), none⟩)] =
      ([⟨"refresh_interval is default 1s for 1 indices (100.00%), consider raising to 30s or 60s to speed up ingestion",
         "REFRESH_INTERVAL", false, .int 1⟩], Option.none) ∧
    (([("idx1", (⟨some (JsonVal.str "30s"), none⟩ : IndexSettings))].map
        Prod.snd).filter usesDefaultRefresh).length = 0 := by
  constructor
  · decide
  · decide

/-- Claim C9: in the dynamic-mapping count of `check_id_field_type`, an index
whose mappings object has no `dynamic` key is counted as dynamic-enabled (the
default is the string "true"), while an index whose `dynamic` value is the
JSON boolean `true` is not counted (the comparison is with the string "true"
exactly). -/
theorem C9_dynamic_mapping_default :
    (∀ (rest : List (String × MappingsObj)) (index : String)
        (props : Option (List (String × FieldDef))) (flat : List (String × FieldDef)),
      dynamic_mapping_enabled ((index, ⟨props, flat, none⟩) :: rest)
        = index :: dynamic_mapping_enabled rest) ∧
    (∀ (rest : List (String × MappingsObj)) (index : String)
        (props : Option (List (String × FieldDef))) (flat : List (String × FieldDef)),
      dynamic_mapping_enabled ((index, ⟨props, flat, some (JsonVal.bool true)⟩) :: rest)
        = dynamic_mapping_enabled rest) := by
  constructor <;> intro rest index props flat <;> simp [dynamic_mapping_enabled]

/-- Claim C10: with an empty shard inventory, `check_shards` appends its
(unconditional) oversharding finding and then raises a division by zero
computing the small-shards percentage, and consequently no full `check()`
run over such a bundle completes without an exception. -/
theorem C10_empty_shards_divzero (b : Bundle) (h : b.shards = []) :
    check_shards b.shards b.cluster_state_size =
      ([⟨"Cluster has 0 shards, that should not cause any issues",
         "OVERSHARDING", true, .int 0⟩], some Err.zeroDivision) ∧
    (checkRun b).2 ≠ none := by
  constructor
  · rw [h]; rfl
  · intro hnone
    unfold checkRun at hnone
    have h1 := (andThen_snd_none.mp hnone).2
    have h2 := (andThen_snd_none.mp h1).2
    have h3 := (andThen_snd_none.mp h2).2
    have h4 := (andThen_snd_none.mp h3).2
    have h5 := (andThen_snd_none.mp h4).2
    have h6 := (andThen_snd_none.mp h5).1
    rw [h] at h6
    simp [check_shards] at h6

/-- Witness for C10 at a concrete bundle with an empty shard inventory. -/
theorem C10_empty_shards_divzero_witness :
    check_shards emptyShardsBundle.shards emptyShardsBundle.cluster_state_size =
      ([⟨"Cluster has 0 shards, that should not cause any issues",
         "OVERSHARDING", true, .int 0⟩], some Err.zeroDivision) ∧
    (checkRun emptyShardsBundle).2 ≠ none :=
  C10_empty_shards_divzero emptyShardsBundle rfl

lemma watermarkScan_ok (ns : List NodeStats) (h : ∀ n ∈ ns, n.fs_total_in_bytes ≠ 0) :
    watermarkScan ns = .ok (ns.filter (fun n => decide (diskFreePct n < 15))) := by
  induction ns with
  | nil => rfl
  | cons n rest ih =>
    have hn : n.fs_total_in_bytes ≠ 0 := h n (List.mem_cons_self _ _)
    have hrest := ih (fun m hm => h m (List.mem_cons_of_mem _ hm))
    by_cases hlt : diskFreePct n < 15 <;>
      simp [watermarkScan, hn, hrest, List.filter_cons, hlt]

lemma filter_wm_of_map_wm (l : List NodeStats) :
    (l.map mkWatermarkBad).filter
        (fun r => r.code == "DISK_WATERMARK_EXCEEDED" && r.bad) = l.map mkWatermarkBad := by
  refine List.filter_eq_self.mpr ?_
  intro r hr
  rcases List.mem_map.mp hr with ⟨n, _, rfl⟩
  rfl

lemma filter_wm_of_map_cpu (l : List NodeStats) :
    (l.map mkCpuBad).filter (fun r => r.code == "DISK_WATERMARK_EXCEEDED" && r.bad) = [] := by
  refine List.filter_eq_nil_iff.mpr ?_
  intro r hr
  rcases List.mem_map.mp hr with ⟨n, _, rfl⟩
  simp [mkCpuBad]

/-- Claim C7: when every node reports a nonzero total disk size,
`check_disk_watermark` raises nothing, and its ATTENTION findings with code
DISK_WATERMARK_EXCEEDED are exactly one per node whose free-disk percentage
is strictly below 15 - equivalently (third conjunct) whose used percentage
`100 - free%` is strictly above 85, so a node at exactly 85% used is not
flagged. -/
theorem C7_disk_watermark (ns : List NodeStats)
    (h : ∀ n ∈ ns, n.fs_total_in_bytes ≠ 0) :
    (check_disk_watermark ns).2 = none ∧
    (check_disk_watermark ns).1.filter
        (fun r => r.code == "DISK_WATERMARK_EXCEEDED" && r.bad)
      = (ns.filter (fun n => decide (diskFreePct n < 15))).map mkWatermarkBad ∧
    (∀ n ∈ ns, (diskFreePct n < 15 ↔ 85 < 100 - diskFreePct n)) := by
  have hscan := watermarkScan_ok ns h
  refine ⟨?_, ?_, ?_⟩
  · simp [check_disk_watermark, hscan]
  · simp only [check_disk_watermark, hscan, List.filter_append]
    by_cases he : (ns.filter (fun n => decide (diskFreePct n < 15))).isEmpty <;>
      by_cases hc : (ns.filter (fun n => decide ((80 : ℚ) < n.os_cpu_percent))).isEmpty <;>
      simp [he, hc, filter_wm_of_map_wm, filter_wm_of_map_cpu,
        List.isEmpty_iff.mp]
  · intro n _
    constructor <;> intro h1 <;> linarith

/-- Witness for C7: a two-node cluster where node n1 is at 1% free (flagged)
and node n2 at 50% free (not flagged). -/
theorem C7_disk_watermark_witness :
    (check_disk_watermark [⟨"n1", 50, 10, 50, 20 * GB, 1, 100, 5⟩,
        ⟨"n2", 50, 10, 50, 20 * GB, 50, 100, 5⟩]).2 = none ∧
    (check_disk_watermark [⟨"n1", 50, 10, 50, 20 * GB, 1, 100, 5⟩,
        ⟨"n2", 50, 10, 50, 20 * GB, 50, 100, 5⟩]).1.filter
        (fun r => r.code == "DISK_WATERMARK_EXCEEDED" && r.bad)
      = ([⟨"n1", 50, 10, 50, 20 * GB, 1, 100, 5⟩,
          ⟨"n2", 50, 10, 50, 20 * GB, 50, 100, 5⟩].filter
            (fun n => decide (diskFreePct n < 15))).map mkWatermarkBad ∧
    (∀ n ∈ [(⟨"n1", 50, 10, 50, 20 * GB, 1, 100, 5⟩ : NodeStats),
        ⟨"n2", 50, 10, 50, 20 * GB, 50, 100, 5⟩],
      (diskFreePct n < 15 ↔ 85 < 100 - diskFreePct n)) :=
  C7_disk_watermark _ (by decide)

/-- Claim C8 (amended): with more than 5 extracted blocks the hot-thread
check writes the blocks verbatim to `hot_threads.txt` (newline-joined,
blank-line separated) and emits one ATTENTION finding noting the count; but
the write is unguarded, so when the sink write fails the check raises
`SinkWriteFailure` and emits nothing at all instead of merely widening the
message. -/
theorem C8_hot_export (lines : List String) (sink_ok : Bool)
    (h : 5 < (hotBlocks lines).length) :
    check_hot_threads lines sink_ok =
      if sink_ok then
        (([⟨toString (hotBlocks lines).length
              ++ " hot threads detected; details written to hot_threads.txt",
            "HOT_THREADS", true, .blocks (hotBlocks lines)⟩], Option.none),
         some (hotSinkContent (hotBlocks lines)))
      else (([], some Err.sinkWrite), Option.none) := by
  cases sink_ok <;> simp [check_hot_threads, h]

/-- Witness for C8 at a dump with six hot blocks and a failing sink. -/
theorem C8_hot_export_witness :
    (5 < (hotBlocks hotLines6).length) ∧
    check_hot_threads hotLines6 false = (([], some Err.sinkWrite), Option.none) := by
  have h : 5 < (hotBlocks hotLines6).length := by decide
  refine ⟨h, ?_⟩
  simpa using C8_hot_export hotLines6 false h

/-- Claim C8 (counterexample): on a concrete bundle with six hot-thread
blocks and a failing sink write, the whole analysis run aborts with the sink
error and surfaces no HOT_THREADS finding at all - the write failure is
fatal, not a mere message widening. -/
theorem C8_sink_failure_aborts :
    (checkRun sinkFailBundle).2 = some Err.sinkWrite ∧
    (checkRun sinkFailBundle).1.all (fun r => r.code != "HOT_THREADS") = true := by
  constructor
  · decide
  · decide

lemma cpu_count_cluster_health (s : String) :
    (check_cluster_health s).countP isCpuBad = 0 := by
  unfold check_cluster_health
  split <;> rfl

lemma cpu_count_unassigned (u : ℤ) :
    (check_unassigned_shards u).countP isCpuBad = 0 := by
  unfold check_unassigned_shards
  split <;> rfl

lemma cpu_count_pending (p : Option ℕ) :
    (check_pending_tasks p).countP isCpuBad = 0 := by
  cases p with
  | none => rfl
  | some c =>
    simp only [check_pending_tasks]
    split <;> rfl

lemma cpu_count_nodes (oops : List JsonVal) :
    (check_nodes oops).countP isCpuBad = 0 := by
  simp only [check_nodes]
  split <;> rfl

lemma cpu_count_memory (ns : List NodeStats) :
    (check_memory_usage ns).countP isCpuBad = 0 := by
  simp only [check_memory_usage, List.countP_append]
  split <;> split <;>
    simp [List.countP_map, Function.comp, isCpuBad, List.countP_cons, List.countP_nil]

lemma cpu_count_jvm (ns : List NodeStats) :
    (check_jvm_heap_usage ns).countP isCpuBad = 0 := by
  simp only [check_jvm_heap_usage]
  split <;>
    simp [List.countP_map, Function.comp, isCpuBad, List.countP_cons, List.countP_nil]

lemma cpu_count_disk_usage (ns : List NodeStats) :
    (check_disk_usage ns).countP isCpuBad = 0 := by
  simp only [check_disk_usage]
  split <;>
    simp [List.countP_map, Function.comp, isCpuBad, List.countP_cons, List.countP_nil]

lemma cpu_count_settings (s : List (String × IndexSettings)) :
    ((check_settings s).1).countP isCpuBad = 0 := by
  simp only [check_settings]
  split
  · rfl
  · split <;> rfl

lemma cpu_count_indices (i : IndicesStats) :
    ((check_indices i).1).countP isCpuBad = 0 := by
  simp only [check_indices]
  split <;> rfl

lemma cpu_count_shards (sh : List ShardRec) (cs : ℤ) :
    ((check_shards sh cs).1).countP isCpuBad = 0 := by
  simp only [check_shards]
  split
  · split <;> rfl
  · split <;> split <;> split <;> split <;> rfl

lemma cpu_count_fielddata (fd : List (List (String × ℤ))) :
    ((check_fielddata fd).1).countP isCpuBad = 0 := by
  simp only [check_fielddata]
  split <;> rfl

lemma cpu_count_field_count (m : List (String × MappingsObj)) :
    (check_field_count m).countP isCpuBad = 0 := by
  simp only [check_field_count]
  split <;>
    simp [List.countP_map, Function.comp, isCpuBad, List.countP_cons, List.countP_nil]

lemma cpu_count_nested (m : List (String × MappingsObj)) :
    (check_nested_fields m).countP isCpuBad = 0 := by
  simp only [check_nested_fields]
  split <;>
    simp [List.countP_map, Function.comp, isCpuBad, List.countP_cons, List.countP_nil]

lemma cpu_count_hot (l : List String) (ok : Bool) :
    (((check_hot_threads l ok).1).1).countP isCpuBad = 0 := by
  simp only [check_hot_threads]
  split
  · split <;> rfl
  · rfl

lemma cpu_count_id_field (m : List (String × MappingsObj)) :
    (check_id_field_type m).countP isCpuBad = 0 := by
  simp only [check_id_field_type, List.countP_append]
  repeat' split
  all_goals
    simp [List.countP_map, Function.comp, isCpuBad, List.countP_cons, List.countP_nil]

lemma cpu_count_custom (m : List (String × MappingsObj)) :
    (check_custom_fields m).countP isCpuBad = 0 := by
  simp only [check_custom_fields, List.countP_append]
  split <;> split <;>
    simp [List.countP_map, Function.comp, isCpuBad, List.countP_cons, List.countP_nil]

lemma cpu_count_index_settings (s : List (String × IndexSettings)) :
    (check_index_settings s).countP isCpuBad = 0 := by
  induction s with
  | nil => rfl
  | cons p rest ih =>
    simp only [check_index_settings, List.foldr_cons] at ih ⊢
    rw [List.countP_append]
    split <;> simp [ih, isCpuBad]

lemma cpu_count_cpu_usage (ns : List NodeStats) :
    (check_cpu_usage ns).countP isCpuBad
      = (ns.filter (fun n => decide ((80 : ℚ) < n.os_cpu_percent))).length := by
  simp only [check_cpu_usage]
  split
  · rename_i h
    simp only [List.isEmpty_iff] at h
    simp [h, isCpuBad]
  · rw [List.countP_map]
    exact List.countP_eq_length.mpr (fun a _ => rfl)

lemma cpu_count_watermark (ns : List NodeStats)
    (h : (check_disk_watermark ns).2 = none) :
    ((check_disk_watermark ns).1).countP isCpuBad
      = (ns.filter (fun n => decide ((80 : ℚ) < n.os_cpu_percent))).length := by
  unfold check_disk_watermark at h ⊢
  cases hs : watermarkScan ns with
  | error e => rw [hs] at h; simp at h
  | ok high =>
    dsimp only
    rw [List.countP_append]
    have hwm : (if high.isEmpty then
          [(⟨"Disk usage is within acceptable limits on all nodes",
            "DISK_WATERMARK_EXCEEDED", false, .none⟩ : Result)]
        else high.map mkWatermarkBad).countP isCpuBad = 0 := by
      split <;> simp [List.countP_map, Function.comp, isCpuBad, mkWatermarkBad,
        List.countP_cons, List.countP_nil]
    rw [hwm]
    split
    · rename_i hc
      simp only [List.isEmpty_iff] at hc
      simp [hc, isCpuBad]
    · rw [List.countP_map]
      simp only [Nat.zero_add]
      exact List.countP_eq_length.mpr (fun a _ => rfl)

/-- Claim C5 (amended): in one full `check()` run that raises nothing, every
node whose CPU percentage exceeds 80 receives exactly THREE attention
HIGH_CPU_USAGE findings, not one: the CPU rule body runs once inside
`check_disk_watermark` (a duplicated copy) and `check_cpu_usage` itself is
invoked twice by `check()`. -/
theorem C5_cpu_findings_tripled (b : Bundle) (h : (checkRun b).2 = none) :
    (checkRun b).1.countP isCpuBad
      = 3 * (b.nodes_stats.filter (fun n => decide ((80 : ℚ) < n.os_cpu_percent))).length := by
  unfold checkRun at h ⊢
  obtain ⟨h0, h1⟩ := andThen_snd_none.mp h
  obtain ⟨hw, h2⟩ := andThen_snd_none.mp h1
  obtain ⟨hs1, h3⟩ := andThen_snd_none.mp h2
  obtain ⟨hst, h4⟩ := andThen_snd_none.mp h3
  obtain ⟨hin, h5⟩ := andThen_snd_none.mp h4
  obtain ⟨hsh, h6⟩ := andThen_snd_none.mp h5
  obtain ⟨hfd, h7⟩ := andThen_snd_none.mp h6
  obtain ⟨hs2, h8⟩ := andThen_snd_none.mp h7
  obtain ⟨hht, hs3⟩ := andThen_snd_none.mp h8
  rw [andThen_fst_of_none h0, andThen_fst_of_none hw, andThen_fst_of_none hs1,
    andThen_fst_of_none hst, andThen_fst_of_none hin, andThen_fst_of_none hsh,
    andThen_fst_of_none hfd, andThen_fst_of_none hs2, andThen_fst_of_none hht]
  simp only [okStep, List.countP_append]
  rw [cpu_count_cluster_health, cpu_count_memory, cpu_count_unassigned,
    cpu_count_watermark _ hw, cpu_count_jvm, cpu_count_pending, cpu_count_cpu_usage,
    cpu_count_disk_usage, cpu_count_nodes, cpu_count_settings, cpu_count_indices,
    cpu_count_shards, cpu_count_fielddata, cpu_count_field_count, cpu_count_nested,
    cpu_count_hot, cpu_count_id_field, cpu_count_custom, cpu_count_index_settings]
  ring

/-- Witness for C5 (amended) at a concrete bundle with one node at 90% CPU. -/
theorem C5_cpu_findings_tripled_witness :
    (checkRun hotCpuBundle).1.countP isCpuBad
      = 3 * (hotCpuBundle.nodes_stats.filter
          (fun n => decide ((80 : ℚ) < n.os_cpu_percent))).length :=
  C5_cpu_findings_tripled hotCpuBundle (by decide)

/-- Claim C5 (counterexample): on a concrete bundle where exactly one node
exceeds 80% CPU, a full clean run emits three attention HIGH_CPU_USAGE
findings rather than exactly one. -/
theorem C5_three_cpu_findings :
    (checkRun hotCpuBundle).2 = none ∧
    (hotCpuBundle.nodes_stats.filter
        (fun n => decide ((80 : ℚ) < n.os_cpu_percent))).length = 1 ∧
    (checkRun hotCpuBundle).1.countP isCpuBad = 3 := by
  refine ⟨by decide, by decide, by decide⟩
